import Mathlib

/-!
Verification of the article lifecycle pipeline of the Bitcoin Mining News Bot
(`main.py`, `bot_lib.py`, `config.py`, `src/services/filtering.py`).

The persisted stores (posting queue, posted-articles ledger, daily-brief
cache) are modelled as explicit Lean values, and each workflow entry point of
`main.py` becomes a pure state transition returning the new store contents
together with the process exit code.  External collaborators (Event Registry,
Gemini, Twitter, GitHub) are modelled by their observable outcomes, passed in
as environment parameters.  Timestamps are seconds as integers; Python
`datetime` arithmetic (`timedelta`, `fromisoformat`, day comparison of ISO
strings) becomes integer arithmetic on those timestamps.
-/

namespace NewsBot

/-- Python `str.lower()`: per-character lowercasing. -/
def lowerString (s : String) : String := ⟨s.data.map Char.toLower⟩

/-- Python `needle in hay` on strings: substring containment. -/
def containsSub (hay needle : String) : Bool := decide (needle.data <:+: hay.data)

/-- `source` sub-dictionary of an Event Registry article (`{uri, title}`).
An absent dictionary (`article.get('source', {})`) is the record with empty
fields, which is how every access site reads it (`.get(..., '')`). -/
structure NewsSource where
  uri : String
  title : String
deriving DecidableEq, Repr

/-- A raw article dictionary as returned by Event Registry and consumed by
`filter_articles` / `workflow_monitor`.  String fields use `""` for an absent
key, matching every access site, which reads them with `.get(k, '')` or via a
falsiness test; `socialScore` and `sentiment` default to `0` at every access
site (`.get('socialScore', 0)`, `.get('sentiment', 0)`), so they are plain
integers; `date` (publication timestamp) is genuinely optional because the
daily-brief pruning substitutes the current time for a missing value. -/
structure Article where
  title : String
  url : String
  body : String
  source : NewsSource
  image : Option String
  socialScore : Int
  sentiment : Int
  date : Option Int
deriving DecidableEq, Repr

/-- An entry of the posting queue file, as built by `workflow_monitor`
(main.py lines 184–192). -/
structure QueueEntry where
  url : String
  title : String
  body : String
  source : NewsSource
  image : Option String
  socialScore : Int
  added_at : Int
deriving DecidableEq, Repr

/-- A record of the posted-articles file, as built by `add_posted_article`
(main.py lines 92–97).  The `date` ISO string and the `timestamp` float hold
the same instant, so a single integer timestamp models both. -/
structure PostedRecord where
  url : String
  tweet_id : Option String
  date : Int
deriving DecidableEq, Repr

/-- The three persisted stores of the pipeline. -/
structure BotState where
  queue : List QueueEntry
  posted : List PostedRecord
  cache : List Article
deriving DecidableEq, Repr

/-! ## bot_lib.filter_articles and bot_lib.remove_duplicate_articles -/

/-- The per-article gate of `bot_lib.filter_articles` (bot_lib.py lines
328–356): required fields, blacklisted sources, blacklisted keywords, social
score threshold, sentiment threshold.  `filter_articles` accepts no body
length parameter and performs no body length check. -/
def passes_filter (blacklisted_sources blacklisted_keywords : List String)
    (min_social_score min_sentiment : Int) (a : Article) : Bool :=
  !(a.title == "" || a.url == "" || a.body == "")
    && !(blacklisted_sources.any fun b =>
          containsSub (lowerString a.source.uri) (lowerString b))
    && !(blacklisted_keywords.any fun k =>
          containsSub (lowerString a.title) (lowerString k)
            || containsSub (lowerString a.body) (lowerString k))
    && !(decide (a.socialScore < min_social_score))
    && !(decide (a.sentiment < min_sentiment))

/-- `bot_lib.filter_articles` (bot_lib.py lines 275–358). -/
def filter_articles (articles : List Article)
    (blacklisted_sources blacklisted_keywords : List String)
    (min_social_score min_sentiment : Int) : List Article :=
  articles.filter
    (passes_filter blacklisted_sources blacklisted_keywords
      min_social_score min_sentiment)

/-- Loop of `bot_lib.remove_duplicate_articles` (bot_lib.py lines 383–392):
`seen` is the set of urls seen so far; an article is kept when its url is
truthy and unseen. -/
def remove_dup_aux (seen : List String) : List Article → List Article
  | [] => []
  | a :: rest =>
    if a.url ≠ "" ∧ a.url ∉ seen then a :: remove_dup_aux (a.url :: seen) rest
    else remove_dup_aux seen rest

/-- `bot_lib.remove_duplicate_articles` (bot_lib.py lines 361–392). -/
def remove_duplicate_articles (articles : List Article) : List Article :=
  remove_dup_aux [] articles

/-! ## Configuration constants (config.py) -/

def BLACKLISTED_SOURCES : List String :=
  ["example-spam-site.com", "clickbait-news.com", "low-quality-source.com"]

def BLACKLISTED_KEYWORDS : List String :=
  ["sponsored", "advertisement", "crypto scam", "get rich quick"]

def MIN_SOCIAL_SCORE : Int := 5

def MIN_ARTICLE_LENGTH : Nat := 200

def MAX_TWEETS_PER_DAY : Nat := 60

def MAX_QUEUE_SIZE : Nat := 100

/-! ## Posted-articles ledger helpers (main.py) -/

/-- Seconds per calendar day; Python compares the `%Y-%m-%d` prefix of ISO
date strings, which for timestamps from one clock is equality of the day
index. -/
def dayIndex (t : Int) : Int := t / 86400

/-- `get_posted_articles_today` (main.py lines 74–85): urls of the ledger
records whose date falls on the current calendar day. -/
def get_posted_articles_today (now : Int) (posted : List PostedRecord) :
    List String :=
  (posted.filter fun p => decide (dayIndex p.date = dayIndex now)).map
    PostedRecord.url

/-- The 30-day pruning of `add_posted_article` (main.py lines 99–104): keep
records strictly newer than `now - 30 days`. -/
def prunePosted (now : Int) (posted : List PostedRecord) : List PostedRecord :=
  posted.filter fun p => decide (now - 30 * 86400 < p.date)

/-- `add_posted_article` (main.py lines 88–106): append the new record, then
prune to the last 30 days. -/
def add_posted_article (now : Int) (url : String) (tweet_id : Option String)
    (posted : List PostedRecord) : List PostedRecord :=
  prunePosted now (posted ++ [{ url := url, tweet_id := tweet_id, date := now }])

/-! ## Queue and cache steps written at main.py lines 172–216\n(dead code: the filter call above them raises TypeError — see workflow_monitor) -/

/-- Python `body[:500]` (main.py line 187). -/
def bodyExcerpt (b : String) : String := ⟨b.data.take 500⟩

/-- The queue entry built at main.py lines 184–192. -/
def mkQueueEntry (now : Int) (a : Article) : QueueEntry :=
  { url := a.url, title := a.title, body := bodyExcerpt a.body,
    source := a.source, image := a.image, socialScore := a.socialScore,
    added_at := now }

/-- The push loop of main.py lines 178–193: `queue_urls` is computed once
from the existing queue, then every unique article whose url is not in that
set is appended. -/
def addNewToQueue (queue : List QueueEntry) (arts : List Article) (now : Int) :
    List QueueEntry :=
  let queue_urls := queue.map QueueEntry.url
  queue ++ (arts.filter fun a => decide (a.url ∉ queue_urls)).map
    (mkQueueEntry now)

/-- The queue size limit of main.py lines 198–200, Python
`queue[-max_queue_size:]`: keep the last `max_queue_size` entries.  For
`max_queue_size = 0` the Python slice `[-0:]` is the whole list. -/
def trimQueue (max_queue_size : Nat) (queue : List QueueEntry) :
    List QueueEntry :=
  if max_queue_size < queue.length then
    if max_queue_size = 0 then queue
    else queue.drop (queue.length - max_queue_size)
  else queue

/-- The daily-brief cache step of main.py lines 206–216: extend the cache by
the unique articles, then keep only entries whose publication date is within
the last 24 hours, a missing date being read as the current time. -/
def accumulateCache (now : Int) (cache arts : List Article) : List Article :=
  (cache ++ arts).filter fun a => decide (now - 24 * 3600 < a.date.getD now)

/-! ## workflow_monitor (main.py lines 113–224) -/

/-- Environment of one `workflow_monitor` invocation: presence of the Event
Registry API key, and the observable outcome of the fetch (`.error` models
an exception escaping `fetch_articles_with_retry`, caught at main.py line
222). -/
structure MonitorEnv where
  api_key_ok : Bool
  fetched : Except Unit (List Article)

/-- `workflow_monitor` as a transition on the persisted stores, returning
the new stores and the process exit code.  Mirrors main.py lines 113–224:
early return 1 on a missing API key or a fetch error, return 0 on an empty
fetch — and on every non-empty fetch, return 1 with all three stores
unchanged, because the call at main.py lines 158–164 passes the keyword
argument `min_length` to `bot_lib.filter_articles`, which accepts no such
parameter: the call raises `TypeError` before the filter body runs, the
handler at line 222 returns 1, and neither the queue file nor the cache
file has been saved by then.  The filter / dedup / push / trim / accumulate
code at main.py lines 158–216 is consequently unreachable; the functions
`filter_articles`, `remove_duplicate_articles`, `addNewToQueue`,
`trimQueue` and `accumulateCache` above embed that dead code for reference,
but no store ever changes in this workflow. -/
def workflow_monitor (env : MonitorEnv) (s : BotState) : BotState × Nat :=
  if !env.api_key_ok then (s, 1)
  else
    match env.fetched with
    | .error _ => (s, 1)
    | .ok articles =>
      if articles.isEmpty then (s, 0)
      else (s, 1)

/-! ## workflow_post (main.py lines 231–360) -/

/-- Environment of one `workflow_post` invocation: presence of the required
API keys, the observable outcome of tweet generation (`.error` = exception,
`.ok t` = returned text, falsy when `t = ""`), and of the Twitter post
(`.error` = exception, `.ok none` / `.ok (some "")` = falsy result,
`.ok (some id)` with `id ≠ ""` = posted).  Image preparation touches no
store (its failures are swallowed at main.py lines 320–322), so it does not
appear. -/
structure PostEnv where
  keys_ok : Bool
  gen_result : Except Unit String
  post_result : Except Unit (Option String)
  max_tweets_per_day : Nat
  now : Int

/-- Python truthiness of the value returned by `post_to_twitter`
(main.py line 337). -/
def tweetIdOk : Option String → Bool
  | some id => id != ""
  | none => false

/-- `workflow_post` as a transition on the persisted stores, returning the
new stores and the process exit code.  Mirrors main.py lines 231–360.  The
stores are the files: a path that returns without saving leaves the popped
entry in the stored queue (main.py lines 290–292), and the explicit failure
paths re-insert it at the head and save (lines 349–353 and 355–360); both
leave the stored queue equal to its initial contents. -/
def workflow_post (env : PostEnv) (s : BotState) : BotState × Nat :=
  if !env.keys_ok then (s, 1)
  else if env.max_tweets_per_day ≤
      (get_posted_articles_today env.now s.posted).length then (s, 0)
  else
    match s.queue with
    | [] => (s, 0)
    | article :: rest =>
      match env.gen_result with
      | .error _ => ({ s with queue := article :: rest }, 1)
      | .ok tweet_text =>
        if tweet_text == "" then (s, 1)
        else
          match env.post_result with
          | .error _ => ({ s with queue := article :: rest }, 1)
          | .ok tid =>
            if tweetIdOk tid then
              let posted2 := add_posted_article env.now article.url tid s.posted
              ({ s with queue := rest, posted := posted2 }, 0)
            else ({ s with queue := article :: rest }, 1)

/-! ## workflow_daily_brief (main.py lines 367–461) -/

/-- Environment of one `workflow_daily_brief` invocation: presence of the two
keys, outcome of digest generation (`.error` = exception) and of the GitHub
issue creation (`.error` = exception, `.ok status` = HTTP status code). -/
structure BriefEnv where
  gemini_key_ok : Bool
  github_token_ok : Bool
  gen_result : Except Unit String
  issue_status : Except Unit Nat

/-- `workflow_daily_brief` as a transition on the daily-brief cache,
returning the new cache and the process exit code.  Mirrors main.py lines
367–461: the cache is loaded (drained) without clearing, and is reset to `[]`
only when the GitHub issue creation returns status 201; every failure path
leaves the cache untouched. -/
def workflow_daily_brief (env : BriefEnv) (cache : List Article) :
    List Article × Nat :=
  if !env.gemini_key_ok then (cache, 1)
  else if !env.github_token_ok then (cache, 1)
  else if cache.isEmpty then (cache, 0)
  else
    match env.gen_result with
    | .error _ => (cache, 1)
    | .ok _ =>
      match env.issue_status with
      | .error _ => (cache, 1)
      | .ok status => if status = 201 then ([], 0) else (cache, 1)

/-! ## bot_lib.fetch_articles_with_retry (bot_lib.py lines 168–234) -/

/-- Observable outcome of one call of `fetch_bitcoin_mining_articles`:
either a list of articles or a raised exception with its message. -/
inductive FetchOutcome where
  | ok (arts : List Article)
  | err (msg : String)
deriving DecidableEq, Repr

/-- Error classes distinguished by the retry loop. -/
inductive ErrClass where
  | fatal
  | rateLimited
  | transient
deriving DecidableEq, Repr

/-- The string-matching classification of bot_lib.py lines 211–218, applied
to `str(e).lower()`: authentication errors first, then rate limits, then
everything else. -/
def classifyError (msg : String) : ErrClass :=
  let m := lowerString msg
  if containsSub m "invalid api key" || containsSub m "authentication" then
    .fatal
  else if containsSub m "rate limit" then .rateLimited
  else .transient

/-- How `fetch_articles_with_retry` ends: a returned article list, a raised
exception, or the fall-through `return []` after a loop over zero attempts. -/
inductive RetryOutcome where
  | success (arts : List Article)
  | raised (msg : String)
  | exhausted
deriving DecidableEq, Repr

/-- Execution trace of `fetch_articles_with_retry`: its final outcome, the
number of times the fetch was invoked, and the sequence of backoff sleeps
performed (seconds, in order). -/
structure RetryTrace where
  outcome : RetryOutcome
  attempts : Nat
  waits : List Nat
deriving DecidableEq, Repr

/-- The loop body of `fetch_articles_with_retry` (bot_lib.py lines 202–232),
with `remaining` the number of loop iterations still to run (including the
current one) and `attempt` the current 0-based loop index.  A fatal error is
re-raised at once; a rate-limited error sleeps `10 * 2^attempt` seconds and
retries while another iteration remains, else re-raises; any other error
sleeps `5 * 2^attempt` seconds and retries while another iteration remains,
else re-raises. -/
def fetch_retry_aux (fetch : Nat → FetchOutcome) (attempt attempts : Nat)
    (waits : List Nat) : Nat → RetryTrace
  | 0 => ⟨.exhausted, attempts, waits⟩
  | remaining + 1 =>
    match fetch attempt with
    | .ok arts => ⟨.success arts, attempts + 1, waits⟩
    | .err msg =>
      match classifyError msg with
      | .fatal => ⟨.raised msg, attempts + 1, waits⟩
      | .rateLimited =>
        if remaining = 0 then ⟨.raised msg, attempts + 1, waits⟩
        else
          fetch_retry_aux fetch (attempt + 1) (attempts + 1)
            (waits ++ [10 * 2 ^ attempt]) remaining
      | .transient =>
        if remaining = 0 then ⟨.raised msg, attempts + 1, waits⟩
        else
          fetch_retry_aux fetch (attempt + 1) (attempts + 1)
            (waits ++ [5 * 2 ^ attempt]) remaining

/-- `bot_lib.fetch_articles_with_retry` (bot_lib.py lines 168–234) as a trace
over the sequence of fetch outcomes, attempt `i` of the underlying call
observing `fetch i`. -/
def fetch_articles_with_retry (fetch : Nat → FetchOutcome)
    (max_retries : Nat) : RetryTrace :=
  fetch_retry_aux fetch 0 0 [] max_retries

/-! ## BitcoinMiningFilter (src/services/filtering.py) -/

/-- `BitcoinMiningFilter.MINING_KEYWORDS` (filtering.py lines 21–28). -/
def MINING_KEYWORDS : List String :=
  ["mining", "miner", "miners", "hashrate", "hash rate",
   "asic", "mining pool", "mining rig", "mining farm",
   "difficulty", "difficulty adjustment", "block reward",
   "mining hardware", "mining operation", "mining company",
   "proof of work", "pow", "mining equipment", "mining power",
   "terahash", "petahash", "exahash", "th/s", "ph/s", "eh/s"]

/-- The content string checked by the filter: Python
`f"{title} {body}"` over the lowercased fields (filtering.py lines 69–71). -/
def miningContent (a : Article) : String :=
  lowerString a.title ++ " " ++ lowerString a.body

/-- `BitcoinMiningFilter.get_mining_keyword_count` (filtering.py lines
81–102): the number of keywords of the fixed list appearing as substrings of
the content — each keyword counted at most once, however often it occurs. -/
def get_mining_keyword_count (a : Article) : Nat :=
  MINING_KEYWORDS.countP fun k => containsSub (miningContent a) k

/-- `BitcoinMiningFilter._is_mining_relevant` (filtering.py lines 59–80). -/
def is_mining_relevant (min_mining_terms : Nat) (a : Article) : Bool :=
  decide (min_mining_terms ≤ get_mining_keyword_count a)

/-- Number of occurrences of `needle` in `hay`: the number of positions at
which `needle` matches. -/
def occurrenceCount (needle hay : List Char) : Nat :=
  (List.range (hay.length + 1)).countP fun i => decide (needle <+: hay.drop i)

/-- Modelled from the spec wording of the domain-relevance check ("count
case-insensitive occurrences of any term in a fixed domain-keyword set"):
the total number of occurrences of the domain keywords in the content,
occurrences counted with multiplicity. -/
def spec_occurrence_count (a : Article) : Nat :=
  (MINING_KEYWORDS.map fun k =>
    occurrenceCount k.data (miningContent a).data).sum

/-! ## Workflow sequences -/

/-- One invocation of an ingest or publish workflow, with its environment. -/
inductive WorkflowStep where
  | monitor (env : MonitorEnv)
  | post (env : PostEnv)

/-- Store contents after one workflow invocation. -/
def runStep (s : BotState) : WorkflowStep → BotState
  | .monitor env => (workflow_monitor env s).1
  | .post env => (workflow_post env s).1

/-- Store contents after a sequence of ingest/publish invocations. -/
def runSteps (s : BotState) (steps : List WorkflowStep) : BotState :=
  steps.foldl runStep s

/-! ## Helper lemmas -/

/-- `workflow_monitor` never changes the stores: every branch — missing
key, fetch error, empty fetch, and the `TypeError` raised by the
`min_length` keyword on a non-empty fetch — returns before any save. -/
theorem workflow_monitor_state_id (env : MonitorEnv) (s : BotState) :
    (workflow_monitor env s).1 = s := by
  unfold workflow_monitor
  cases env.api_key_ok with
  | false => rfl
  | true =>
    cases env.fetched with
    | error u => rfl
    | ok arts =>
      cases arts with
      | nil => rfl
      | cons a l => rfl

/-- `workflow_post` either leaves the stores untouched, or pops the head
entry, records it in the ledger and saves the tail as the queue. -/
theorem workflow_post_cases (env : PostEnv) (s : BotState) :
    (workflow_post env s).1 = s ∨
    ∃ a rest tid, s.queue = a :: rest ∧ env.post_result = .ok tid ∧
      tweetIdOk tid = true ∧
      ¬env.max_tweets_per_day ≤
        (get_posted_articles_today env.now s.posted).length ∧
      workflow_post env s =
        ({ queue := rest,
           posted := add_posted_article env.now a.url tid s.posted,
           cache := s.cache }, 0) := by
  obtain ⟨q, p, c⟩ := s
  by_cases hk : env.keys_ok
  · by_cases hrate : env.max_tweets_per_day ≤
        (get_posted_articles_today env.now p).length
    · exact Or.inl (by simp [workflow_post, hk, hrate])
    · cases hq : q with
      | nil => exact Or.inl (by simp [workflow_post, hk, hrate, hq])
      | cons a rest =>
        cases hg : env.gen_result with
        | error u => exact Or.inl (by simp [workflow_post, hk, hrate, hq, hg])
        | ok tweet_text =>
          by_cases ht : tweet_text = ""
          · exact Or.inl (by simp [workflow_post, hk, hrate, hq, hg, ht])
          · cases hp : env.post_result with
            | error u =>
              exact Or.inl (by simp [workflow_post, hk, hrate, hq, hg, ht, hp])
            | ok tid =>
              by_cases hid : tweetIdOk tid
              · refine Or.inr ⟨a, rest, tid, rfl, rfl, hid, hrate, ?_⟩
                simp [workflow_post, hk, hrate, hq, hg, ht, hp, hid]
              · have hid2 : tweetIdOk tid = false := by
                  revert hid; cases tweetIdOk tid <;> simp
                exact Or.inl (by
                  simp [workflow_post, hk, hrate, hq, hg, ht, hp, hid2])
  · have hk2 : env.keys_ok = false := by
      revert hk; cases env.keys_ok <;> simp
    exact Or.inl (by simp [workflow_post, hk2])

/-- The url-uniqueness invariant of the spec: queue urls are pairwise
distinct, and no queue url appears in the posted ledger. -/
def DedupInvariant (s : BotState) : Prop :=
  (s.queue.map QueueEntry.url).Nodup ∧
  ∀ u ∈ s.queue.map QueueEntry.url, u ∉ s.posted.map PostedRecord.url

theorem mem_add_posted_article_url {u : String} {now : Int} {url0 : String}
    {tid : Option String} {posted : List PostedRecord}
    (h : u ∈ (add_posted_article now url0 tid posted).map PostedRecord.url) :
    u ∈ posted.map PostedRecord.url ∨ u = url0 := by
  unfold add_posted_article prunePosted at h
  rcases List.mem_map.mp h with ⟨p, hp, hpu⟩
  have hp2 := (List.mem_filter.mp hp).1
  rcases List.mem_append.mp hp2 with h3 | h3
  · exact Or.inl (List.mem_map.mpr ⟨p, h3, hpu⟩)
  · right
    rw [List.mem_singleton] at h3
    subst h3
    exact hpu.symm

/-- `workflow_post` preserves the url-uniqueness invariant: on success the
popped entry's url moves from the queue (where it occurred once) into the
ledger, and the remaining queue urls stay distinct and ledger-free. -/
theorem workflow_post_dedup_invariant (env : PostEnv) (s : BotState)
    (h : DedupInvariant s) : DedupInvariant (workflow_post env s).1 := by
  rcases workflow_post_cases env s with hc | ⟨a, rest, tid, hq, _, _, _, hc⟩
  · rw [hc]; exact h
  · rw [hc]
    obtain ⟨h1, h2⟩ := h
    rw [hq] at h1 h2
    have h1b : (QueueEntry.url a :: rest.map QueueEntry.url).Nodup := by
      simpa using h1
    constructor
    · exact (List.nodup_cons.mp h1b).2
    · intro u hu humem
      have huq : u ∈ (a :: rest).map QueueEntry.url := by
        simp only [List.map_cons, List.mem_cons]
        exact Or.inr hu
      rcases mem_add_posted_article_url humem with h4 | h4
      · exact h2 u huq h4
      · rw [h4] at hu
        exact (List.nodup_cons.mp h1b).1 hu

/-! ## Concrete fixtures for counterexamples and witnesses -/

def exSource : NewsSource := ⟨"news.example", "Example News"⟩

/-- An article that passes every gate `filter_articles` implements. -/
def artA : Article :=
  { title := "Bitcoin mining difficulty hits new high",
    url := "https://news.example/a",
    body := "Bitcoin mining difficulty rose again this week.",
    source := exSource, image := none, socialScore := 10, sentiment := 0,
    date := some 3456000 }

/-- A second passing article, used for the eviction scenario. -/
def artW : Article :=
  { title := "Hashrate reaches record level",
    url := "https://news.example/w",
    body := "Total network hashrate reached a record level.",
    source := exSource, image := none, socialScore := 9, sentiment := 0,
    date := some 3456000 }

def queueEntryOf (u : String) : QueueEntry :=
  { url := u, title := "t", body := "", source := exSource, image := none,
    socialScore := 0, added_at := 0 }

def monitorEnvOf (fetched : List Article) : MonitorEnv :=
  { api_key_ok := true, fetched := .ok fetched }

/-! ## C1 -/

/-- C1: url uniqueness across the union of queue and posted ledger.  Ingest
never pushes anything at all — its push loop is unreachable behind the
`min_length` `TypeError`, so it leaves the stores untouched and in
particular never pushes a url recorded in the posted ledger — and publish
moves the popped head url from the queue into the ledger, keeping the two
stores url-disjoint.  Hence the invariant is preserved by every sequence of
ingest and publish invocations. -/
theorem C1_queue_ledger_disjoint :
    (∀ (steps : List WorkflowStep) (s : BotState),
      DedupInvariant s → DedupInvariant (runSteps s steps))
    ∧ (∀ (env : MonitorEnv) (s : BotState),
        (workflow_monitor env s).1 = s) := by
  refine ⟨?_, workflow_monitor_state_id⟩
  intro steps
  induction steps with
  | nil => intro s h; exact h
  | cons step rest ih =>
    intro s h
    show DedupInvariant (runSteps (runStep s step) rest)
    apply ih
    cases step with
    | monitor env =>
      show DedupInvariant (workflow_monitor env s).1
      rw [workflow_monitor_state_id]
      exact h
    | post env => exact workflow_post_dedup_invariant env s h

def sQueueB : BotState :=
  { queue := [queueEntryOf "https://news.example/b"], posted := [],
    cache := [] }

def postEnvOk : PostEnv :=
  { keys_ok := true, gen_result := .ok "Fresh tweet text",
    post_result := .ok (some "123"), max_tweets_per_day := MAX_TWEETS_PER_DAY,
    now := 3456100 }

/-- Witness for C1, at a concrete ingest-then-publish sequence starting
from stores satisfying the invariant. -/
theorem C1_queue_ledger_disjoint_witness :
    DedupInvariant (runSteps sQueueB
      [WorkflowStep.monitor (monitorEnvOf [artA]),
       WorkflowStep.post postEnvOk]) ∧
    (workflow_monitor (monitorEnvOf [artA]) sQueueB).1 = sQueueB :=
  ⟨C1_queue_ledger_disjoint.1 _ sQueueB ⟨by decide, by decide⟩,
   C1_queue_ledger_disjoint.2 (monitorEnvOf [artA]) sQueueB⟩

/-! ## C2 -/

/-- An article whose body is far shorter than `MIN_ARTICLE_LENGTH` but which
passes every check `filter_articles` actually performs. -/
def shortBodyArticle : Article :=
  { title := "Mining difficulty update",
    url := "https://news.example/short",
    body := "Bitcoin mining difficulty rose.",
    source := exSource, image := none, socialScore := 10, sentiment := 0,
    date := some 0 }

/-- C2 (code-bug evidence): the ingestion filter keeps an article whose body
has fewer than `MIN_ARTICLE_LENGTH` (200) characters, because
`filter_articles` implements no body-length gate (and does not even accept
the `min_length` keyword its caller in main.py passes). -/
theorem C2_no_body_length_gate :
    shortBodyArticle.body.length < MIN_ARTICLE_LENGTH ∧
    filter_articles [shortBodyArticle] BLACKLISTED_SOURCES
      BLACKLISTED_KEYWORDS MIN_SOCIAL_SCORE (-1) = [shortBodyArticle] ∧
    remove_duplicate_articles
      (filter_articles [shortBodyArticle] BLACKLISTED_SOURCES
        BLACKLISTED_KEYWORDS MIN_SOCIAL_SCORE (-1)) = [shortBodyArticle] := by
  decide

/-! ## C4 -/

def sXYZ : BotState :=
  { queue := [queueEntryOf "x", queueEntryOf "y", queueEntryOf "z"],
    posted := [], cache := [] }

/-- C4 (code-bug evidence): with bound 3, existing queue `[x, y, z]` and one
fresh passing article `w`, the real `workflow_monitor` raises `TypeError` at
the filter call and exits 1 with the queue still `[x, y, z]` — no push, no
trim, no bound enforcement ever executes — while the unreachable
push-and-trim code of main.py lines 172–200 would indeed have produced
`[y, z, w]`. -/
theorem C4_queue_bound_unreachable :
    workflow_monitor (monitorEnvOf [artW]) sXYZ = (sXYZ, 1) ∧
    sXYZ.queue = [queueEntryOf "x", queueEntryOf "y", queueEntryOf "z"] ∧
    trimQueue 3
      (addNewToQueue sXYZ.queue
        (remove_duplicate_articles
          (filter_articles [artW] BLACKLISTED_SOURCES BLACKLISTED_KEYWORDS
            MIN_SOCIAL_SCORE (-1))) 3456000) =
      [queueEntryOf "y", queueEntryOf "z", mkQueueEntry 3456000 artW] := by
  decide

/-! ## C10 -/

/-- A 600-character body. -/
def longBody : String := ⟨List.replicate 600 'm'⟩

def longBodyArticle : Article :=
  { title := "Mining difficulty report",
    url := "https://news.example/long", body := longBody,
    source := exSource, image := none, socialScore := 10, sentiment := 0,
    date := some 3456000 }

set_option maxRecDepth 8000 in
/-- C10 (code-bug evidence): `workflow_monitor` never creates any queue
entry — fed an article with a 600-character body it raises `TypeError` and
exits 1 with the queue unchanged — while the unreachable entry constructor
of main.py lines 184–192 (embedded as `mkQueueEntry`) would have stored
exactly the first 500 characters of the body. -/
theorem C10_body_excerpt_unreachable :
    longBodyArticle.body.length = 600 ∧
    workflow_monitor (monitorEnvOf [longBodyArticle]) sQueueB =
      (sQueueB, 1) ∧
    (mkQueueEntry 3456000 longBodyArticle).body =
      (⟨List.replicate 500 'm'⟩ : String) ∧
    (mkQueueEntry 3456000 longBodyArticle).body.length = 500 := by
  decide

/-! ## C3 -/

/-- The failure modes of the post step after a successful pop: content
generation raises or returns falsy text, or posting raises or returns a
falsy result. -/
def postStepFails (env : PostEnv) : Bool :=
  match env.gen_result with
  | .error _ => true
  | .ok t =>
    if t = "" then true
    else
      match env.post_result with
      | .error _ => true
      | .ok tid => !(tweetIdOk tid)

/-- C3: whenever the post step fails after a successful pop, the stored
queue keeps the popped entry at its head with the remaining order preserved
(the stores are exactly the initial ones), the posted ledger is unchanged,
and the workflow exits with failure (1). -/
theorem C3_publish_failure_restores_queue :
    ∀ (env : PostEnv) (s : BotState) (a : QueueEntry)
      (rest : List QueueEntry),
      env.keys_ok = true →
      s.queue = a :: rest →
      (get_posted_articles_today env.now s.posted).length <
        env.max_tweets_per_day →
      postStepFails env = true →
      workflow_post env s = (s, 1) := by
  intro env s a rest hk hq hrate hfail
  have hr2 : ¬env.max_tweets_per_day ≤
      (get_posted_articles_today env.now s.posted).length := by omega
  cases hg : env.gen_result with
  | error u =>
    simp only [workflow_post, hk, hr2, hq, hg]
    simp [← hq]
  | ok t =>
    simp only [postStepFails, hg] at hfail
    by_cases ht : t = ""
    · simp [workflow_post, hk, hr2, hq, hg, ht]
    · rw [if_neg ht] at hfail
      cases hp : env.post_result with
      | error u =>
        simp only [workflow_post, hk, hr2, hq, hg, ht, hp]
        simp [← hq]
      | ok tid =>
        simp only [hp] at hfail
        have hid : tweetIdOk tid = false := by simpa using hfail
        simp only [workflow_post, hk, hr2, hq, hg, ht, hp, hid]
        simp [← hq]

def postEnvFail : PostEnv :=
  { keys_ok := true, gen_result := .ok "Generated tweet",
    post_result := .ok none, max_tweets_per_day := MAX_TWEETS_PER_DAY,
    now := 1000 }

def sAB : BotState :=
  { queue := [queueEntryOf "a", queueEntryOf "b"], posted := [], cache := [] }

/-- Witness for C3, realising the spec scenario: queue `[a, b]`, `a` popped,
post returns a falsy result, queue stays `[a, b]`, ledger unchanged, exit
failure. -/
theorem C3_publish_failure_restores_queue_witness :
    workflow_post postEnvFail sAB = (sAB, 1) :=
  C3_publish_failure_restores_queue postEnvFail sAB (queueEntryOf "a")
    [queueEntryOf "b"] rfl rfl (by decide) (by decide)

/-! ## C5 -/

theorem today_len (now : Int) (l : List PostedRecord) :
    (get_posted_articles_today now l).length =
      (l.filter fun p => decide (dayIndex p.date = dayIndex now)).length := by
  simp [get_posted_articles_today]

theorem today_len_prune_le (now : Int) (l : List PostedRecord) :
    (get_posted_articles_today now (prunePosted now l)).length ≤
      (get_posted_articles_today now l).length := by
  rw [today_len, today_len]
  exact ((List.filter_sublist l).filter _).length_le

/-- C5: `workflow_post` never pushes the number of same-day ledger records
above the configured daily maximum, and when the count has already reached
the maximum (keys present) it is a pure no-op exiting with success. -/
theorem C5_daily_rate_limit :
    ∀ (env : PostEnv) (s : BotState),
      ((get_posted_articles_today env.now s.posted).length ≤
          env.max_tweets_per_day →
        (get_posted_articles_today env.now
          ((workflow_post env s).1.posted)).length ≤
            env.max_tweets_per_day)
      ∧ (env.keys_ok = true →
          (get_posted_articles_today env.now s.posted).length =
            env.max_tweets_per_day →
          workflow_post env s = (s, 0)) := by
  intro env s
  constructor
  · intro hle
    rcases workflow_post_cases env s with hc | ⟨a, rest, tid, hq, hp, hid, hrate, hc⟩
    · rw [hc]; exact hle
    · rw [hc]
      show (get_posted_articles_today env.now
        (add_posted_article env.now a.url tid s.posted)).length ≤ _
      unfold add_posted_article
      have h1 := today_len_prune_le env.now
        (s.posted ++ [⟨a.url, tid, env.now⟩])
      have h2 : (get_posted_articles_today env.now
          (s.posted ++ [⟨a.url, tid, env.now⟩])).length ≤
            (get_posted_articles_today env.now s.posted).length + 1 := by
        rw [today_len, today_len, List.filter_append, List.length_append]
        have h3 := List.length_filter_le
          (fun p : PostedRecord => decide (dayIndex p.date = dayIndex env.now))
          [⟨a.url, tid, env.now⟩]
        simp only [List.length_cons, List.length_nil] at h3
        omega
      omega
  · intro hk heq
    have hge : env.max_tweets_per_day ≤
        (get_posted_articles_today env.now s.posted).length := le_of_eq heq.symm
    simp [workflow_post, hk, hge]

def postEnvAtLimit : PostEnv :=
  { keys_ok := true, gen_result := .ok "T", post_result := .ok (some "9"),
    max_tweets_per_day := 1, now := 172800 }

def sAtLimit : BotState :=
  { queue := [queueEntryOf "a"], posted := [⟨"u", some "1", 172805⟩],
    cache := [] }

/-- Witness for C5: with one post already recorded today and a daily maximum
of one, `workflow_post` leaves both stores untouched and exits 0. -/
theorem C5_daily_rate_limit_witness :
    workflow_post postEnvAtLimit sAtLimit = (sAtLimit, 0) :=
  (C5_daily_rate_limit postEnvAtLimit sAtLimit).2 rfl (by decide)

/-! ## C6 -/

/-- `workflow_daily_brief` either fails leaving the cache intact, no-ops on
an empty cache, or succeeds (both keys present, generation succeeded, issue
created with status 201) and clears the cache. -/
theorem workflow_daily_brief_cases (env : BriefEnv) (cache : List Article) :
    (workflow_daily_brief env cache = (cache, 1) ∧
      ¬(env.gemini_key_ok = true ∧ env.github_token_ok = true ∧
        (∃ t, env.gen_result = .ok t) ∧ env.issue_status = .ok 201)) ∨
    (workflow_daily_brief env cache = (cache, 0) ∧ cache = []) ∨
    (workflow_daily_brief env cache = ([], 0) ∧ env.gemini_key_ok = true ∧
      env.github_token_ok = true ∧ (∃ t, env.gen_result = .ok t) ∧
      env.issue_status = .ok 201) := by
  cases hg1 : env.gemini_key_ok with
  | false => exact Or.inl ⟨by simp [workflow_daily_brief, hg1], by simp⟩
  | true =>
    cases hg2 : env.github_token_ok with
    | false =>
      exact Or.inl ⟨by simp [workflow_daily_brief, hg1, hg2], by simp⟩
    | true =>
      by_cases hc : cache = []
      · exact Or.inr (Or.inl
          ⟨by simp [workflow_daily_brief, hg1, hg2, List.isEmpty_iff, hc],
           hc⟩)
      · cases hgen : env.gen_result with
        | error u =>
          exact Or.inl ⟨by
            simp [workflow_daily_brief, hg1, hg2, List.isEmpty_iff, hc, hgen],
            by simp⟩
        | ok txt =>
          cases hi : env.issue_status with
          | error u2 =>
            exact Or.inl ⟨by
              simp [workflow_daily_brief, hg1, hg2, List.isEmpty_iff, hc,
                hgen, hi],
              by simp⟩
          | ok st =>
            by_cases hst : st = 201
            · subst hst
              exact Or.inr (Or.inr
                ⟨by simp [workflow_daily_brief, hg1, hg2, List.isEmpty_iff,
                    hc, hgen, hi],
                 rfl, rfl, ⟨txt, rfl⟩, rfl⟩)
            · refine Or.inl ⟨by
                simp [workflow_daily_brief, hg1, hg2, List.isEmpty_iff, hc,
                  hgen, hi, hst], ?_⟩
              rintro ⟨-, -, -, h⟩
              exact hst (Except.ok.inj h)

/-- C6: the digest drain never partially clears the cache; the cache is
reset to empty only after the GitHub issue is confirmed created (status
201); any generation or delivery failure leaves the cache intact (so a
subsequent invocation drains at least the same content); on success the
cache is empty immediately after. -/
theorem C6_digest_two_phase :
    ∀ (env : BriefEnv) (cache : List Article),
      ((workflow_daily_brief env cache).1 = cache ∨
        ((workflow_daily_brief env cache).1 = [] ∧
          (workflow_daily_brief env cache).2 = 0))
      ∧ (cache ≠ [] → (workflow_daily_brief env cache).1 = [] →
          env.issue_status = .ok 201 ∧ (workflow_daily_brief env cache).2 = 0)
      ∧ ((env.gen_result = .error () ∨ env.issue_status = .error () ∨
          (∃ st, env.issue_status = .ok st ∧ st ≠ 201)) →
          (workflow_daily_brief env cache).1 = cache)
      ∧ (env.gemini_key_ok = true → env.github_token_ok = true →
          (∃ t, env.gen_result = .ok t) → env.issue_status = .ok 201 →
          (workflow_daily_brief env cache).1 = []) := by
  intro env cache
  rcases workflow_daily_brief_cases env cache with ⟨hw, hnot⟩ |
    ⟨hw, hemp⟩ | ⟨hw, h1, h2, h3, h4⟩
  · refine ⟨Or.inl (by rw [hw]), ?_, ?_, ?_⟩
    · intro hne hclear
      rw [hw] at hclear
      exact absurd hclear hne
    · intro _; rw [hw]
    · intro k1 k2 k3 k4
      exact absurd ⟨k1, k2, k3, k4⟩ hnot
  · refine ⟨Or.inl (by rw [hw]), ?_, ?_, ?_⟩
    · intro hne _; exact absurd hemp hne
    · intro _; rw [hw]
    · intro _ _ _ _
      rw [hw, hemp]
  · refine ⟨Or.inr ⟨by rw [hw], by rw [hw]⟩, ?_, ?_, ?_⟩
    · intro _ _; exact ⟨h4, by rw [hw]⟩
    · intro hfail
      rcases hfail with hf | hf | ⟨st, hst, hne⟩
      · rcases h3 with ⟨t, ht⟩
        rw [hf] at ht
        cases ht
      · rw [hf] at h4
        cases h4
      · rw [hst] at h4
        exact absurd (Except.ok.inj h4) hne
    · intro _ _ _ _; rw [hw]

def briefEnvFail : BriefEnv :=
  { gemini_key_ok := true, github_token_ok := true,
    gen_result := .ok "Daily brief body", issue_status := .ok 500 }

/-- Witness for C6: on a failed issue creation (HTTP 500) the cache is left
intact. -/
theorem C6_digest_two_phase_witness :
    (workflow_daily_brief briefEnvFail [artA]).1 = [artA] :=
  (C6_digest_two_phase briefEnvFail [artA]).2.2.1
    (Or.inr (Or.inr ⟨500, rfl, by decide⟩))

/-! ## C8 -/

/-- A cache entry whose publication timestamp is far older than 24 hours
before the fixture clock 3456000. -/
def staleArticle : Article :=
  { title := "Old news", url := "https://news.example/old", body := "Stale.",
    source := exSource, image := none, socialScore := 7, sentiment := 0,
    date := some 1000 }

def sStaleCache : BotState :=
  { queue := [], posted := [], cache := [staleArticle] }

/-- C8: the ledger half holds — after `add_posted_article` no record has a
timestamp preceding `now - 30 days` — but the cache half names dead code:
the accumulate step of main.py lines 206–216 is unreachable behind the
`min_length` `TypeError`, so a monitor run leaves a stale (>24h) cache
entry in place and exits 1, while the unreachable `accumulateCache` step
would have pruned it. -/
theorem C8_retention_pruning :
    (∀ (now : Int) (url : String) (tid : Option String)
       (posted : List PostedRecord) (p : PostedRecord),
       p ∈ add_posted_article now url tid posted →
       ¬(p.date < now - 30 * 86400))
    ∧ workflow_monitor (monitorEnvOf [artA]) sStaleCache = (sStaleCache, 1)
    ∧ staleArticle ∈
        (workflow_monitor (monitorEnvOf [artA]) sStaleCache).1.cache
    ∧ staleArticle.date.getD 3456000 < 3456000 - 24 * 3600
    ∧ staleArticle ∉ accumulateCache 3456000 sStaleCache.cache [artA] := by
  refine ⟨?_, by decide, by decide, by decide, by decide⟩
  intro now url tid posted p hp
  unfold add_posted_article prunePosted at hp
  have h2 := (List.mem_filter.mp hp).2
  have h3 : now - 30 * 86400 < p.date := of_decide_eq_true h2
  omega

/-- Witness for C8's ledger conjunct, at one concrete write. -/
theorem C8_retention_pruning_witness :
    ¬((1000 : Int) < 1000 - 30 * 86400) :=
  C8_retention_pruning.1 1000 "u" (some "1") [] ⟨"u", some "1", 1000⟩
    (by decide)

/-! ## C9 -/

theorem substring_iff_drop_start {α : Type} (l₁ l₂ : List α) :
    l₁ <:+: l₂ ↔ ∃ i, i < l₂.length + 1 ∧ l₁ <+: l₂.drop i := by
  constructor
  · rintro ⟨s, t, rfl⟩
    refine ⟨s.length, ?_, ?_⟩
    · simp [List.length_append]
      omega
    · rw [List.append_assoc, List.drop_left]
      exact ⟨t, rfl⟩
  · rintro ⟨i, _, ⟨t, ht⟩⟩
    refine ⟨l₂.take i, t, ?_⟩
    rw [List.append_assoc, ht, List.take_append_drop]

theorem occurrenceCount_pos_iff (needle hay : List Char) :
    0 < occurrenceCount needle hay ↔ needle <:+: hay := by
  unfold occurrenceCount
  rw [List.countP_pos_iff]
  constructor
  · rintro ⟨i, hi, hp⟩
    rw [List.mem_range] at hi
    exact (substring_iff_drop_start needle hay).mpr ⟨i, hi, of_decide_eq_true hp⟩
  · intro h
    rcases (substring_iff_drop_start needle hay).mp h with ⟨i, hi, hp⟩
    exact ⟨i, List.mem_range.mpr hi, decide_eq_true hp⟩

theorem containsSub_eq_decide_occ (hay needle : String) :
    containsSub hay needle =
      decide (0 < occurrenceCount needle.data hay.data) := by
  unfold containsSub
  exact (decide_eq_decide.mpr (occurrenceCount_pos_iff _ _)).symm

/-- The article of the C9 counterexample: the single keyword `mining` occurs
twice, and no other domain keyword occurs. -/
def doubleMiningArticle : Article :=
  { title := "mining mining", url := "https://news.example/m", body := "",
    source := exSource, image := none, socialScore := 10, sentiment := 0,
    date := some 0 }

set_option maxRecDepth 8000 in
/-- C9 counterexample: with the default minimum of 2, the total number of
case-insensitive keyword occurrences in title + body is 2 (the word
`mining` twice), yet `_is_mining_relevant` rejects the article — the code
counts each keyword of the list at most once, not occurrences. -/
theorem C9_occurrence_count_cex :
    2 ≤ spec_occurrence_count doubleMiningArticle ∧
    is_mining_relevant 2 doubleMiningArticle = false := by
  decide

/-- C9 (amended): the relevance check passes iff the number of distinct
terms of the fixed domain-keyword set that occur case-insensitively (as
substrings, at least once) within the lowercased `title ++ " " ++ body` is
at least the configured minimum. -/
theorem C9_distinct_keyword_gate :
    ∀ (min_mining_terms : Nat) (a : Article),
      is_mining_relevant min_mining_terms a = true ↔
        min_mining_terms ≤ (MINING_KEYWORDS.filter fun k =>
          0 < occurrenceCount k.data (miningContent a).data).length := by
  intro m a
  unfold is_mining_relevant get_mining_keyword_count
  rw [decide_eq_true_eq]
  rw [List.countP_eq_length_filter]
  rw [List.filter_congr (fun k _ => containsSub_eq_decide_occ (miningContent a) k)]

set_option maxRecDepth 40000 in
/-- Witness for C9 (amended): an article with three distinct keywords
present passes with minimum 2. -/
theorem C9_distinct_keyword_gate_witness :
    is_mining_relevant 2 artA = true ∧
    2 ≤ (MINING_KEYWORDS.filter fun k =>
      0 < occurrenceCount k.data (miningContent artA).data).length :=
  ⟨by decide, (C9_distinct_keyword_gate 2 artA).mp (by decide)⟩

/-! ## C7 -/

/-- The backoff the loop body computes for a retried attempt `j`:
`(2 ** attempt) * 10` seconds after a rate-limit error, `(2 ** attempt) * 5`
seconds after any other retried error. -/
def expectedWait (fetch : Nat → FetchOutcome) (j : Nat) : Nat :=
  match fetch j with
  | .ok _ => 0
  | .err m =>
    match classifyError m with
    | .rateLimited => 10 * 2 ^ j
    | _ => 5 * 2 ^ j

/-- Outcome of one attempt that raises a non-fatal (retryable) error. -/
def nonFatalErr (o : FetchOutcome) : Prop :=
  ∃ m, o = .err m ∧ classifyError m ≠ .fatal

theorem fetch_retry_aux_zero (fetch : Nat → FetchOutcome)
    (attempt attempts : Nat) (waits : List Nat) :
    fetch_retry_aux fetch attempt attempts waits 0 =
      ⟨.exhausted, attempts, waits⟩ := rfl

theorem fetch_retry_aux_succ (fetch : Nat → FetchOutcome)
    (attempt attempts : Nat) (waits : List Nat) (r : Nat) :
    fetch_retry_aux fetch attempt attempts waits (r + 1) =
      match fetch attempt with
      | .ok arts => ⟨.success arts, attempts + 1, waits⟩
      | .err msg =>
        match classifyError msg with
        | .fatal => ⟨.raised msg, attempts + 1, waits⟩
        | .rateLimited =>
          if r = 0 then ⟨.raised msg, attempts + 1, waits⟩
          else fetch_retry_aux fetch (attempt + 1) (attempts + 1)
            (waits ++ [10 * 2 ^ attempt]) r
        | .transient =>
          if r = 0 then ⟨.raised msg, attempts + 1, waits⟩
          else fetch_retry_aux fetch (attempt + 1) (attempts + 1)
            (waits ++ [5 * 2 ^ attempt]) r := rfl

theorem fetch_retry_aux_step (fetch : Nat → FetchOutcome)
    (attempt attempts : Nat) (waits : List Nat) (r : Nat) (m : String)
    (hm : fetch attempt = .err m) (hc : classifyError m ≠ .fatal)
    (hr : r ≠ 0) :
    fetch_retry_aux fetch attempt attempts waits (r + 1)
      = fetch_retry_aux fetch (attempt + 1) (attempts + 1)
          (waits ++ [expectedWait fetch attempt]) r := by
  rw [fetch_retry_aux_succ, hm]
  cases hcl : classifyError m with
  | fatal => exact absurd hcl hc
  | rateLimited => simp [hr, expectedWait, hm, hcl]
  | transient => simp [hr, expectedWait, hm, hcl]

theorem fetch_retry_aux_run (fetch : Nat → FetchOutcome) :
    ∀ (k attempt attempts : Nat) (waits : List Nat) (remaining : Nat),
      (∀ j, j < k → nonFatalErr (fetch (attempt + j))) →
      k < remaining →
      fetch_retry_aux fetch attempt attempts waits remaining
        = fetch_retry_aux fetch (attempt + k) (attempts + k)
            (waits ++
              (List.range k).map fun i => expectedWait fetch (attempt + i))
            (remaining - k) := by
  intro k
  induction k with
  | zero =>
    intro attempt attempts waits remaining h hk
    simp
  | succ k ih =>
    intro attempt attempts waits remaining h hk
    obtain ⟨m, hm, hc⟩ := h 0 (Nat.succ_pos k)
    rw [Nat.add_zero] at hm
    obtain ⟨r, rfl⟩ : ∃ r, remaining = r + 1 := ⟨remaining - 1, by omega⟩
    have hr : r ≠ 0 := by omega
    rw [fetch_retry_aux_step fetch attempt attempts waits r m hm hc hr]
    rw [ih (attempt + 1) (attempts + 1)
      (waits ++ [expectedWait fetch attempt]) r
      (fun j hj => by
        have h2 := h (j + 1) (by omega)
        rwa [show attempt + (j + 1) = attempt + 1 + j by omega] at h2)
      (by omega)]
    have hw : (waits ++ [expectedWait fetch attempt]) ++
        (List.range k).map (fun i => expectedWait fetch (attempt + 1 + i))
        = waits ++
            (List.range (k + 1)).map fun i => expectedWait fetch (attempt + i) := by
      rw [List.append_assoc, List.singleton_append]
      congr 1
      rw [List.range_succ_eq_map, List.map_cons, List.map_map]
      congr 1
      apply List.map_congr_left
      intro i _
      simp only [Function.comp]
      congr 1
      omega
    rw [hw]
    rw [show attempt + 1 + k = attempt + (k + 1) from by omega]
    rw [show attempts + 1 + k = attempts + (k + 1) from by omega]
    rw [show r - k = r + 1 - (k + 1) from by omega]

theorem fetch_retry_aux_attempts_le (fetch : Nat → FetchOutcome) :
    ∀ (remaining attempt attempts : Nat) (waits : List Nat),
      (fetch_retry_aux fetch attempt attempts waits remaining).attempts ≤
        attempts + remaining := by
  intro remaining
  induction remaining with
  | zero =>
    intro attempt attempts waits
    rw [fetch_retry_aux_zero]
    dsimp only
    omega
  | succ r ih =>
    intro attempt attempts waits
    rw [fetch_retry_aux_succ]
    split
    · dsimp only; omega
    · split
      · dsimp only; omega
      · split
        · dsimp only; omega
        · have h2 := ih (attempt + 1) (attempts + 1)
            (waits ++ [10 * 2 ^ attempt])
          omega
      · split
        · dsimp only; omega
        · have h2 := ih (attempt + 1) (attempts + 1)
            (waits ++ [5 * 2 ^ attempt])
          omega

/-- C7: in `fetch_articles_with_retry`, a fatal (authentication) error is
re-raised at once with no further attempt; a run reaching attempt `k` has
performed exactly the backoff sleeps `10 * 2^j` (rate-limit) or `5 * 2^j`
(other retryable error) for each earlier attempt `j`; at most `max_retries`
attempts are ever made; and when every attempt fails non-fatally, the last
error is propagated. -/
theorem C7_retry_classification_backoff :
    ∀ (fetch : Nat → FetchOutcome) (max_retries : Nat),
      (∀ k m, k < max_retries →
        (∀ j, j < k → nonFatalErr (fetch j)) →
        fetch k = .err m → classifyError m = .fatal →
        fetch_articles_with_retry fetch max_retries =
          ⟨.raised m, k + 1, (List.range k).map fun i => expectedWait fetch i⟩)
      ∧ (∀ k arts, k < max_retries →
          (∀ j, j < k → nonFatalErr (fetch j)) →
          fetch k = .ok arts →
          fetch_articles_with_retry fetch max_retries =
            ⟨.success arts, k + 1,
              (List.range k).map fun i => expectedWait fetch i⟩)
      ∧ (∀ m, 0 < max_retries →
          (∀ j, j < max_retries → nonFatalErr (fetch j)) →
          fetch (max_retries - 1) = .err m →
          fetch_articles_with_retry fetch max_retries =
            ⟨.raised m, max_retries,
              (List.range (max_retries - 1)).map fun i =>
                expectedWait fetch i⟩)
      ∧ (fetch_articles_with_retry fetch max_retries).attempts ≤
          max_retries := by
  intro fetch max_retries
  refine ⟨?_, ?_, ?_, ?_⟩
  · intro k m hk hpre hm hcl
    unfold fetch_articles_with_retry
    rw [fetch_retry_aux_run fetch k 0 0 [] max_retries
      (fun j hj => by simpa using hpre j hj) hk]
    simp only [Nat.zero_add, List.nil_append]
    obtain ⟨r, hrr⟩ : ∃ r, max_retries - k = r + 1 :=
      ⟨max_retries - k - 1, by omega⟩
    rw [hrr, fetch_retry_aux_succ, hm]
    simp [hcl]
  · intro k arts hk hpre hm
    unfold fetch_articles_with_retry
    rw [fetch_retry_aux_run fetch k 0 0 [] max_retries
      (fun j hj => by simpa using hpre j hj) hk]
    simp only [Nat.zero_add, List.nil_append]
    obtain ⟨r, hrr⟩ : ∃ r, max_retries - k = r + 1 :=
      ⟨max_retries - k - 1, by omega⟩
    rw [hrr, fetch_retry_aux_succ, hm]
  · intro m h0 hall hm
    unfold fetch_articles_with_retry
    rw [fetch_retry_aux_run fetch (max_retries - 1) 0 0 [] max_retries
      (fun j hj => by simpa using hall j (by omega)) (by omega)]
    simp only [Nat.zero_add, List.nil_append]
    rw [show max_retries - (max_retries - 1) = 0 + 1 from by omega]
    rw [fetch_retry_aux_succ, hm]
    obtain ⟨m2, hm2, hc2⟩ := hall (max_retries - 1) (by omega)
    rw [hm] at hm2
    have hmm : m = m2 := FetchOutcome.err.inj hm2
    subst hmm
    cases hcl : classifyError m with
    | fatal => exact absurd hcl hc2
    | rateLimited =>
      have he : max_retries - 1 + 1 = max_retries := by omega
      simp [hcl, he]
    | transient =>
      have he : max_retries - 1 + 1 = max_retries := by omega
      simp [hcl, he]
  · unfold fetch_articles_with_retry
    have h2 := fetch_retry_aux_attempts_le fetch max_retries 0 0 []
    omega

/-- A fetch schedule that always fails with an authentication error. -/
def authFailFetch : Nat → FetchOutcome :=
  fun _ => .err "Invalid API key supplied"

/-- A fetch schedule: rate-limited, then a transient error, then success. -/
def mixedFetch : Nat → FetchOutcome
  | 0 => .err "Rate limit exceeded"
  | 1 => .err "Connection timeout"
  | _ => .ok []

/-- Witness for C7: the fatal error aborts after one attempt with no sleeps,
and the mixed schedule retries with sleeps 10 then 10 (= 5 * 2^1) before
succeeding on the third of three attempts. -/
theorem C7_retry_classification_backoff_witness :
    fetch_articles_with_retry authFailFetch 3 =
      ⟨.raised "Invalid API key supplied", 1, []⟩ ∧
    fetch_articles_with_retry mixedFetch 3 = ⟨.success [], 3, [10, 10]⟩ :=
  ⟨((C7_retry_classification_backoff authFailFetch 3).1 0
      "Invalid API key supplied" (by omega) (fun j hj => absurd hj (by omega))
      rfl (by decide)).trans (by decide),
   ((C7_retry_classification_backoff mixedFetch 3).2.1 2 [] (by omega)
      (fun j hj => by
        interval_cases j
        · exact ⟨"Rate limit exceeded", rfl, by decide⟩
        · exact ⟨"Connection timeout", rfl, by decide⟩)
      rfl).trans (by decide)⟩

end NewsBot
